import Mathlib

/-!
A shallow embedding of the core entity and protocol engine of the DroNET
drone-network simulator: the entity model of
`src/entities/uav_entities.py` (events, packets, drones, depot) and the
QTAR reinforcement-learning routing algorithm of
`src/routing_algorithms/qtar_routing.py`.

Modelling conventions: Python floats are rationals, Python lists and
numpy arrays are Lean lists, Python negative indexing is explicit
(`py_get`, `np_set`), the numpy `nan` sentinel becomes `Option.none`,
drones are referred to by their integer identifier, and a raised Python
exception is `Option.none` at the outermost level.
-/

namespace DroNET

/-- `Event` (uav_entities.py, lines 49-64): identifier, coordinates,
generation time (`current_time`) and `deadline`. -/
structure Event where
  identifier : Int
  coords : ℚ × ℚ
  current_time : Int
  deadline : Int
deriving DecidableEq

/-- `Event.is_expired` (lines 75-77): `cur_step > self.deadline`. -/
def Event.is_expired (e : Event) (cur_step : Int) : Bool :=
  cur_step > e.deadline

/-- `Packet` (lines 104-134): the fields the core protocol reads or
writes.  `TTL` is the private `__TTL` hop counter, `last_2_hops` the
sliding window of the last carrying drones (by identifier),
`time_delivery` the delivery stamp. -/
structure Packet where
  identifier : Int
  time_step_creation : Int
  event_ref : Event
  TTL : Int
  last_2_hops : List ℕ
  time_delivery : Int
deriving DecidableEq

/-- `Packet.__init__` (lines 107-134): `__TTL = -1`, `last_2_hops = []`,
`time_delivery = -1`. -/
def Packet.init (identifier time_step_creation : Int) (event_ref : Event) : Packet :=
  ⟨identifier, time_step_creation, event_ref, -1, [], -1⟩

/-- `Packet.add_hop` (lines 152-160): when the window already holds two
hops drop the oldest (`self.last_2_hops[1:]`), append the new drone, then
`increase_TTL_hops` (line 163) increments `__TTL`. -/
def Packet.add_hop (p : Packet) (drone : ℕ) : Packet :=
  let window := if p.last_2_hops.length = 2 then p.last_2_hops.drop 1 else p.last_2_hops
  { p with last_2_hops := window ++ [drone], TTL := p.TTL + 1 }

/-- Iterated `add_hop`, one call per drone in `ds` (in order). -/
def Packet.add_hops (p : Packet) (ds : List ℕ) : Packet :=
  ds.foldl Packet.add_hop p

/-- `Packet.is_expired` (lines 168-170): delegates to the event deadline,
`cur_step > self.event_ref.deadline`; the TTL field plays no role. -/
def Packet.is_expired (p : Packet) (cur_step : Int) : Bool :=
  cur_step > p.event_ref.deadline

/-- The two most recent elements of a list, oldest first: the intended
content of the `last_2_hops` sliding window. -/
def last_two (ds : List ℕ) : List ℕ :=
  (ds.reverse.take 2).reverse

/-- `Entity` (lines 21-37): identifier and mutable coordinates. -/
structure Entity where
  identifier : Int
  coords : ℚ × ℚ
deriving DecidableEq

/-- `Entity.__eq__` (lines 29-34) for two `Entity` arguments (the
`isinstance` test holds): `other.identifier == self.identifier`. -/
def entity_eq (self other : Entity) : Bool :=
  other.identifier == self.identifier

/-- `Entity.__hash__` (lines 36-37) computes
`hash((self.identifier, self.coords))`; the Python hash is modelled by
the tuple it is applied to. -/
def entity_hash_input (e : Entity) : Int × (ℚ × ℚ) :=
  (e.identifier, e.coords)

/-- One iteration of the link-duration loop in `Drone.update_hello_interval`
(lines 304-309): `delta = dist_t2 - dist_t1`; if `delta > 0` then
`abs(communication_range - dist_t2) / (delta / (t2 - t1))`, else
`dist_t2 / speed`. -/
def link_duration (communication_range speed dist_t1 dist_t2 t1 t2 : ℚ) : ℚ :=
  let delta := dist_t2 - dist_t1
  if 0 < delta then |communication_range - dist_t2| / (delta / (t2 - t1))
  else dist_t2 / speed

/-- `self.tau = 0.5` from `Drone.__init__` (line 250). -/
def drone_tau : ℚ := 1 / 2

/-- Line 315: `self.hello_interval = np.ceil(self.tau * self.link_holding_timer)`. -/
def hello_interval_of (tau link_holding_timer : ℚ) : Int :=
  ⌈tau * link_holding_timer⌉

/-- `np.nanmax` over a list of (non-nan) rationals; 0 on the empty list
(unreached: the caller returns early when there are no neighbors). -/
def nanmax_list : List ℚ → ℚ
  | [] => 0
  | x :: xs => xs.foldl max x

/-- The hello-protocol state of a drone (lines 249-257). -/
structure HelloState where
  dist_t1 : List ℚ
  t1 : List ℚ
  dist_t2 : List ℚ
  t2 : List ℚ
  link_holding_timer : ℚ
  hello_interval : Int

/-- `Drone.update_hello_interval` (lines 291-319) after `calc_distances`
has refreshed the `t2` samples: early return on no neighbors, per-index
link durations, `link_holding_timer = nanmax`, ceiling of
`tau * link_holding_timer`, then rolling `t2` into `t1`. -/
def update_hello_interval_core (communication_range speed tau : ℚ) (n_neighbors : ℕ)
    (st : HelloState) : HelloState :=
  if n_neighbors = 0 then st
  else
    let durations := (List.range n_neighbors).map fun i =>
      link_duration communication_range speed (st.dist_t1.getD i 0) (st.dist_t2.getD i 0)
        (st.t1.getD i 0) (st.t2.getD i 0)
    let lht := nanmax_list durations
    { st with
      link_holding_timer := lht
      hello_interval := hello_interval_of tau lht
      t1 := st.t2
      dist_t1 := st.dist_t2 }

/-- The drone fields touched around `HelloPacket.__init__` (lines 199-217,
222-274): everything the constructor could read or write. -/
structure DroneS where
  identifier : ℕ
  coords : ℚ × ℚ
  speed : ℚ
  residual_energy : ℚ
  link_holding_timer : ℚ
  hello_interval : Int
  sequence_number : Int
  move_routing : Bool
  buffer : List Packet
deriving DecidableEq

/-- The fields a `HelloPacket` records at construction (lines 202-217). -/
structure HelloPacketS where
  time_step_creation : Int
  cur_pos : ℚ × ℚ
  speed : ℚ
  next_target : ℚ × ℚ
  link_holding_timer : ℚ
  sequence_number : Int
deriving DecidableEq

/-- `HelloPacket.__init__` (lines 202-217): the packet stores
`src_drone.sequence_number` as it is (line 210) and then the drone's
counter is incremented (line 213).  Returns the packet together with the
updated source drone. -/
def hello_packet_init (src_drone : DroneS) (time_step_creation : Int) (cur_pos : ℚ × ℚ)
    (speed : ℚ) (next_target : ℚ × ℚ) (link_holding_timer : ℚ) : HelloPacketS × DroneS :=
  (⟨time_step_creation, cur_pos, speed, next_target, link_holding_timer,
      src_drone.sequence_number⟩,
   { src_drone with sequence_number := src_drone.sequence_number + 1 })

/-- The string `"GEO" "RND" "GEOS"` of lines 341 and 578: Python
concatenates the adjacent literals into `"GEORNDGEOS"`. -/
def baseline_concat : List Char := "GEORNDGEOS".toList

/-- Python substring containment `need in hay` on strings. -/
def has_substring (hay need : List Char) : Bool :=
  match hay with
  | [] => need.isEmpty
  | c :: rest => need.isPrefixOf (c :: rest) || has_substring rest need

/-- The guard `self.simulator.routing_algorithm.name not in "GEO" "RND" "GEOS"`
(lines 341 and 578): true when the algorithm name is not a substring of
the concatenated baseline string, i.e. for learning algorithms. -/
def name_not_in_baselines (name : List Char) : Bool :=
  !(has_substring baseline_concat name)

/-- One invocation `drone.routing_algorithm.feedback(current_drone,
id_event, delay, outcome)`; `recipient` is the index of the drone whose
routing algorithm receives the call. -/
structure FeedbackCall where
  recipient : ℕ
  id_event : Int
  delay : Int
  outcome : Int
deriving DecidableEq

/-- `np.nanmin([acc, d])` where `acc` may be the `nan` sentinel. -/
def nanmin_acc (acc : Option Int) (d : Int) : Option Int :=
  match acc with
  | none => some d
  | some m => some (min m d)

/-- The negative-feedback broadcast of `Drone.update_packets`
(lines 341-350): for each expired packet, unless the algorithm name is in
the baseline string, call `feedback` on every drone with the packet's
event id, `delay = event_duration` and `outcome = -1`. -/
def expired_feedbacks (alg_name : List Char) (n_drones : ℕ) (event_duration : Int)
    (pck : Packet) : List FeedbackCall :=
  if name_not_in_baselines alg_name then
    (List.range n_drones).map fun j =>
      (⟨j, pck.event_ref.identifier, event_duration, -1⟩ : FeedbackCall)
  else []

/-- One iteration of the loop of `Drone.update_packets` (lines 332-350)
over the accumulator (tmp_buffer, tightest_event_deadline, feedback
calls issued so far). -/
def update_packets_step (alg_name : List Char) (n_drones : ℕ) (event_duration cur_step : Int)
    (acc : List Packet × Option Int × List FeedbackCall) (pck : Packet) :
    List Packet × Option Int × List FeedbackCall :=
  if !(pck.is_expired cur_step) then
    (acc.1 ++ [pck], nanmin_acc acc.2.1 pck.event_ref.deadline, acc.2.2)
  else
    (acc.1, acc.2.1, acc.2.2 ++ expired_feedbacks alg_name n_drones event_duration pck)

/-- `Drone.update_packets` (lines 321-354): prune expired packets,
recompute the tightest deadline (starting from the `nan` sentinel,
line 330), issue the negative-feedback broadcast, and clear
`move_routing` when the pruned buffer is empty (lines 353-354).
Returns (new buffer, tightest deadline, feedback calls, move_routing). -/
def update_packets (alg_name : List Char) (n_drones : ℕ) (event_duration cur_step : Int)
    (buffer : List Packet) (move_routing : Bool) :
    List Packet × Option Int × List FeedbackCall × Bool :=
  let r := buffer.foldl (update_packets_step alg_name n_drones event_duration cur_step)
    ([], none, [])
  (r.1, r.2.1, r.2.2, if r.1.length = 0 then false else move_routing)

/-- The minimum of a list of integers, `none` on the empty list: the
specification-side description of the tightest deadline. -/
def min_int_list : List Int → Option Int
  | [] => none
  | d :: ds =>
    match min_int_list ds with
    | none => some d
    | some m => some (min d m)

/-- The positive-feedback broadcast of `Depot.transfer_notified_packets`
(lines 578-587): for a transferred packet, unless the algorithm name is
in the baseline string, call `feedback` on every drone with the packet's
event id, `delay = cur_step - event.current_time` and `outcome = 1`. -/
def delivery_feedbacks (alg_name : List Char) (n_drones : ℕ) (cur_step : Int)
    (pck : Packet) : List FeedbackCall :=
  if name_not_in_baselines alg_name then
    (List.range n_drones).map fun j =>
      (⟨j, pck.event_ref.identifier, cur_step - pck.event_ref.current_time, 1⟩ : FeedbackCall)
  else []

/-- One iteration of the loop of `Depot.transfer_notified_packets`
(lines 576-593): feedback broadcast for the packet, then
`pck.time_delivery = cur_step` (line 593).  Packets are shared by
reference, so the heap is modelled as a store from packet id to
`Packet`. -/
def transfer_step (alg_name : List Char) (n_drones : ℕ) (cur_step : Int)
    (acc : (ℕ → Packet) × List FeedbackCall) (pid : ℕ) : (ℕ → Packet) × List FeedbackCall :=
  let fbs := acc.2 ++ delivery_feedbacks alg_name n_drones cur_step (acc.1 pid)
  (fun k => if k = pid then { acc.1 pid with time_delivery := cur_step } else acc.1 k, fbs)

/-- `Depot.transfer_notified_packets` (lines 570-593): append all of the
source drone's packets to the depot buffer (line 574, by reference and
without deduplication), then per packet broadcast the positive feedback
and stamp `time_delivery`.  Returns (depot buffer, source buffer, packet
store, feedback calls). -/
def transfer_notified_packets (alg_name : List Char) (n_drones : ℕ) (cur_step : Int)
    (depot_buffer src_buffer : List ℕ) (store : ℕ → Packet) :
    List ℕ × List ℕ × (ℕ → Packet) × List FeedbackCall :=
  let packets_to_offload := src_buffer
  let depot2 := depot_buffer ++ packets_to_offload
  let r := packets_to_offload.foldl (transfer_step alg_name n_drones cur_step) (store, [])
  (depot2, src_buffer, r.1, r.2)

/-- The mutable state of a `QTARRouting` instance (qtar_routing.py,
lines 9-15): `taken_actions` maps an event id to the `(state, action)`
pair (an association list with unique keys, modelling the Python dict)
and `q_table` is the value table, one entry per drone. -/
structure QTARState where
  taken_actions : List (Int × Int × Int)
  q_table : List ℚ
deriving DecidableEq

/-- `self.A = 0.7` (line 13). -/
def qtar_A : ℚ := 7 / 10

/-- `self.B = 0.2` (line 14). -/
def qtar_B : ℚ := 2 / 10

/-- `self.C = 0.1` (line 15). -/
def qtar_C : ℚ := 1 / 10

/-- Assignment `arr[i] = v` on a numpy array with Python index
semantics: a negative index counts from the end. -/
def np_set (arr : List ℚ) (i : Int) (v : ℚ) : List ℚ :=
  if 0 ≤ i then arr.set i.toNat v
  else arr.set (arr.length - (-i).toNat) v

/-- `QTARRouting.feedback` (lines 17-43): if the event id has a pending
action, delete the entry, normalise the delay by `packets_max_ttl`, use
the constant speed 1 and the providing drone's normalised residual
energy, and assign the blend `A*delay + B*speed + C*energy` to
`q_table[action]`; otherwise do nothing.  The `outcome` argument is
unused by the source. -/
def qtar_feedback (st : QTARState) (id_event : Int)
    (delay residual_energy packets_max_ttl drone_max_energy : ℚ) (_outcome : Int) : QTARState :=
  match st.taken_actions.find? (fun p => p.1 == id_event) with
  | none => st
  | some (_, _, action) =>
    let delay2 := delay / packets_max_ttl
    let speed : ℚ := 1
    let energy := residual_energy / drone_max_energy
    { taken_actions := st.taken_actions.filter (fun p => !(p.1 == id_event)),
      q_table := np_set st.q_table action (qtar_A * delay2 + qtar_B * speed + qtar_C * energy) }

/-- Read `l[i]` with Python index semantics: a negative index counts
from the end, an out-of-range index raises (`none`). -/
def py_get (l : List ℕ) (i : Int) : Option ℕ :=
  if 0 ≤ i then l.get? i.toNat
  else if (-i).toNat ≤ l.length then l.get? (l.length - (-i).toNat) else none

/-- Insert index `i` into an index list sorted ascending by the value
`q[i]`, after any index of equal value. -/
def insert_by_q (q : List ℚ) (i : ℕ) : List ℕ → List ℕ
  | [] => [i]
  | j :: rest => if q.getD i 0 < q.getD j 0 then i :: j :: rest else j :: insert_by_q q i rest

/-- `np.argsort(self.q_table)` (line 72): the indices of the value table
sorted ascending by value, ties by index. -/
def argsort (q : List ℚ) : List ℕ :=
  (List.range q.length).foldl (fun acc i => insert_by_q q i acc) []

/-- The inputs `QTARRouting.relay_selection` (lines 45-83) reads:
the drone's id, the simulator drone roster (by identifier), the two-hop
neighbor table `{one_hop_id: [neighbor ids]}`, the value table, the
current step and `packets_max_ttl`. -/
structure QTARInput where
  self_id : ℕ
  drones : List ℕ
  two_hop_neighbors : List (ℕ × List ℕ)
  q_table : List ℚ
  cur_step : Int
  packets_max_ttl : Int

/-- `QTARRouting.relay_selection` (lines 45-83), with the helper
functions `util.two_hop_speed` and `util.compute_required_speed`
(defined outside the two source files) as parameters.  `action` starts
at the sentinel `-1` (line 53); candidates come from the near-depot hint
or the two-hop scan with `speed > required_speed` (lines 56-69); the
value-table scan takes the first sorted index that is a candidate
(lines 72-78); the `(state, action)` pair is recorded under the packet's
event id (line 81) and the function returns
`self.simulator.drones[action]` (line 83) with Python index semantics.
An uncaught Python `IndexError` is `none`. -/
def relay_selection (inp : QTARInput) (two_hop_speed : ℕ → ℕ → ℚ)
    (compute_required_speed : ℕ → Int → ℚ)
    (pkt_event_id pkt_time_step_creation drone_near_depot_id : Int) :
    Option ((Int × ℕ × Int) × ℕ) :=
  let state := inp.self_id
  let selected_drones : Option (List ℕ) :=
    if drone_near_depot_id ≠ -1 then
      (py_get inp.drones drone_near_depot_id).map (fun d => [d])
    else
      some (inp.two_hop_neighbors.flatMap fun pr =>
        pr.2.filter fun nb =>
          decide (compute_required_speed nb
              (inp.packets_max_ttl - (inp.cur_step - pkt_time_step_creation)) <
            two_hop_speed pr.1 nb))
  match selected_drones with
  | none => none
  | some sel =>
    let sorted := argsort inp.q_table
    let action : Int :=
      match sorted.find? (fun j => sel.contains j) with
      | some j => (j : Int)
      | none => -1
    (py_get inp.drones action).map (fun d => ((pkt_event_id, state, action), d))

/-- C9: `Event.is_expired(step)` holds iff `step > deadline` (so it is
false at `step = deadline` and true at `step = deadline + 1`), and
`Packet.is_expired(step)` holds iff `step` exceeds the event's deadline,
independently of the packet's TTL value. -/
theorem C9_is_expired_spec :
    ∀ (e : Event) (cur_step : Int),
      (e.is_expired cur_step = true ↔ cur_step > e.deadline) ∧
      e.is_expired e.deadline = false ∧
      e.is_expired (e.deadline + 1) = true ∧
      ∀ (p : Packet) (ttl : Int),
        (p.is_expired cur_step = true ↔ cur_step > p.event_ref.deadline) ∧
        ({ p with TTL := ttl } : Packet).is_expired cur_step = p.is_expired cur_step := by
  intro e cur_step
  refine ⟨?_, ?_, ?_, ?_⟩
  · simp [Event.is_expired]
  · simp [Event.is_expired]
  · simp [Event.is_expired]
  · intro p ttl
    exact ⟨by simp [Packet.is_expired], rfl⟩

/-- C10: constructing a `HelloPacket` increments the source drone's
`sequence_number` by exactly one, the packet records the pre-increment
value, and every other field of the source drone is unchanged. -/
theorem C10_hello_packet_frame (src_drone : DroneS) (time_step_creation : Int)
    (cur_pos : ℚ × ℚ) (speed : ℚ) (next_target : ℚ × ℚ) (link_holding_timer : ℚ) :
    (hello_packet_init src_drone time_step_creation cur_pos speed next_target
        link_holding_timer).1.sequence_number = src_drone.sequence_number ∧
    (hello_packet_init src_drone time_step_creation cur_pos speed next_target
        link_holding_timer).2.sequence_number = src_drone.sequence_number + 1 ∧
    (hello_packet_init src_drone time_step_creation cur_pos speed next_target
        link_holding_timer).2.identifier = src_drone.identifier ∧
    (hello_packet_init src_drone time_step_creation cur_pos speed next_target
        link_holding_timer).2.coords = src_drone.coords ∧
    (hello_packet_init src_drone time_step_creation cur_pos speed next_target
        link_holding_timer).2.speed = src_drone.speed ∧
    (hello_packet_init src_drone time_step_creation cur_pos speed next_target
        link_holding_timer).2.residual_energy = src_drone.residual_energy ∧
    (hello_packet_init src_drone time_step_creation cur_pos speed next_target
        link_holding_timer).2.link_holding_timer = src_drone.link_holding_timer ∧
    (hello_packet_init src_drone time_step_creation cur_pos speed next_target
        link_holding_timer).2.hello_interval = src_drone.hello_interval ∧
    (hello_packet_init src_drone time_step_creation cur_pos speed next_target
        link_holding_timer).2.move_routing = src_drone.move_routing ∧
    (hello_packet_init src_drone time_step_creation cur_pos speed next_target
        link_holding_timer).2.buffer = src_drone.buffer :=
  ⟨rfl, rfl, rfl, rfl, rfl, rfl, rfl, rfl, rfl, rfl⟩

/-- C8 counterexample: two `Entity` objects with the same id but
different coordinates compare equal, yet the tuples fed to `hash`
differ, so the hash is not determined by the id alone. -/
theorem C8_counterexample :
    entity_eq ⟨1, (0, 0)⟩ ⟨1, (2, 3)⟩ = true ∧
    entity_hash_input ⟨1, (0, 0)⟩ ≠ entity_hash_input ⟨1, (2, 3)⟩ := by
  refine ⟨rfl, ?_⟩
  intro h
  have h2 : ((0 : ℚ), (0 : ℚ)) = ((2 : ℚ), (3 : ℚ)) := congrArg Prod.snd h
  have h3 : (0 : ℚ) = 2 := congrArg Prod.fst h2
  norm_num at h3

/-- C8 amended: `Entity` equality holds iff the identifiers are equal
(so changing the coordinates never changes identity), but the hash is
computed from the pair `(identifier, coords)`, so changing the
coordinates does change the hash input. -/
theorem C8_eq_by_id_hash_by_id_and_coords :
    (∀ a b : Entity, entity_eq a b = true ↔ a.identifier = b.identifier) ∧
    (∀ (i : Int) (c c' : ℚ × ℚ), entity_eq ⟨i, c⟩ ⟨i, c'⟩ = true) ∧
    (∀ (i : Int) (c c' : ℚ × ℚ), c ≠ c' →
      entity_hash_input ⟨i, c⟩ ≠ entity_hash_input ⟨i, c'⟩) := by
  refine ⟨?_, ?_, ?_⟩
  · intro a b
    simp only [entity_eq, beq_iff_eq]
    exact eq_comm
  · intro i c c'
    show (i == i) = true
    simp
  · intro i c c' hcc h
    exact hcc (congrArg Prod.snd h)

/-- C8 witness: the amended statement at a concrete input. -/
theorem C8_witness :
    entity_eq ⟨5, (0, 0)⟩ ⟨5, (9, 9)⟩ = true ∧
    entity_hash_input ⟨5, (0, 0)⟩ ≠ entity_hash_input ⟨5, (9, 9)⟩ :=
  ⟨C8_eq_by_id_hash_by_id_and_coords.2.1 5 (0, 0) (9, 9),
   C8_eq_by_id_hash_by_id_and_coords.2.2 5 (0, 0) (9, 9) (by
    intro h
    have := congrArg Prod.fst h
    norm_num at this)⟩

/-- C1 counterexample: at samples with strictly decreasing distance
(`dist_t1 = 50`, `dist_t2 = 40`, an approaching neighbor) the code takes
the `dist_t2 / speed` branch (value 8), not the closing-speed branch the
claim prescribes (value -6). -/
theorem C1_counterexample :
    (40 : ℚ) < 50 ∧
    link_duration 100 5 50 40 0 1 ≠ |(100 : ℚ) - 40| / (((40 : ℚ) - 50) / (1 - 0)) := by
  constructor
  · norm_num
  · have h1 : link_duration 100 5 50 40 0 1 = 8 := by norm_num [link_duration]
    have h2 : |(100 : ℚ) - 40| / (((40 : ℚ) - 50) / (1 - 0)) = -6 := by
      rw [show |(100 : ℚ) - 40| = 60 by norm_num]
      norm_num
    rw [h1, h2]
    norm_num

/-- C1 amended: in `update_hello_interval`, when the distance strictly
increases between t1 and t2 (neighbor receding) the link duration is the
closing-speed branch `|communication_range - dist_t2| /
((dist_t2 - dist_t1) / (t2 - t1))`; when it strictly decreases or stays
equal (neighbor approaching or stationary) it is `dist_t2 / speed`. -/
theorem C1_link_duration_branches (communication_range speed d1 d2 t1 t2 : ℚ) :
    (d1 < d2 →
      link_duration communication_range speed d1 d2 t1 t2 =
        |communication_range - d2| / ((d2 - d1) / (t2 - t1))) ∧
    (d2 ≤ d1 →
      link_duration communication_range speed d1 d2 t1 t2 = d2 / speed) := by
  constructor
  · intro h
    simp only [link_duration]
    rw [if_pos (sub_pos.mpr h)]
  · intro h
    simp only [link_duration]
    rw [if_neg (not_lt.mpr (sub_nonpos.mpr h))]

/-- C1 witness: the amended statement at the concrete approaching
sample. -/
theorem C1_witness : link_duration 100 5 50 40 0 1 = 40 / 5 :=
  (C1_link_duration_branches 100 5 50 40 0 1).2 (by norm_num)

/-- C3 counterexample: `link_holding_timer = 0` is non-negative, yet
`hello_interval = ceil(tau * 0) = 0 < 1`. -/
theorem C3_counterexample :
    (0 : ℚ) ≤ 0 ∧ hello_interval_of drone_tau 0 < 1 := by
  constructor
  · exact le_refl 0
  · simp [hello_interval_of]

/-- C3 amended: for every strictly positive `link_holding_timer` the
hello interval `ceil(tau * link_holding_timer)` with `tau = 0.5` is at
least 1 (at `link_holding_timer = 0` it is 0). -/
theorem C3_interval_ge_one (link_holding_timer : ℚ) (h : 0 < link_holding_timer) :
    1 ≤ hello_interval_of drone_tau link_holding_timer := by
  have htau : (0 : ℚ) < drone_tau := by norm_num [drone_tau]
  have hpos : (0 : ℚ) < drone_tau * link_holding_timer := mul_pos htau h
  have := Int.ceil_pos.mpr hpos
  simpa [hello_interval_of] using this

/-- C3 witness: the amended statement at `link_holding_timer = 6`. -/
theorem C3_witness : 1 ≤ hello_interval_of drone_tau 6 :=
  C3_interval_ge_one 6 (by norm_num)

theorem add_hops_TTL (ds : List ℕ) : ∀ p : Packet, (p.add_hops ds).TTL = p.TTL + ds.length := by
  induction ds with
  | nil => intro p; simp [Packet.add_hops]
  | cons d rest ih =>
    intro p
    have : p.add_hops (d :: rest) = (p.add_hop d).add_hops rest := rfl
    rw [this, ih]
    simp [Packet.add_hop]
    ring

theorem last_two_concat (ds : List ℕ) (d : ℕ) :
    last_two (ds ++ [d]) =
      (if (last_two ds).length = 2 then (last_two ds).drop 1 else last_two ds) ++ [d] := by
  unfold last_two
  rw [show (ds ++ [d]).reverse = d :: ds.reverse by simp]
  cases h : ds.reverse with
  | nil => simp
  | cons a t =>
    cases t with
    | nil => simp
    | cons b t2 => simp [List.take]

theorem add_hops_window (ds : List ℕ) :
    ∀ p : Packet, p.last_2_hops = [] → (p.add_hops ds).last_2_hops = last_two ds := by
  induction ds using List.reverseRecOn with
  | nil =>
    intro p hp
    simpa [Packet.add_hops, last_two] using hp
  | append_singleton rest d ih =>
    intro p hp
    have hsplit : p.add_hops (rest ++ [d]) = (p.add_hops rest).add_hop d := by
      simp [Packet.add_hops, List.foldl_append]
    rw [hsplit]
    have hwin : (p.add_hops rest).last_2_hops = last_two rest := ih p hp
    simp only [Packet.add_hop, hwin]
    exact (last_two_concat rest d).symm

theorem last_two_length_le (ds : List ℕ) : (last_two ds).length ≤ 2 := by
  simp [last_two]

/-- C7: for a freshly constructed packet, after `add_hop` has been
called once per drone of `ds` (n = `ds.length` >= 1 calls), the TTL
equals n - 1, and `last_2_hops` is the window of the (at most two) most
recently added drones, the oldest dropped when a third is added. -/
theorem C7_add_hop_spec (identifier time_step_creation : Int) (event_ref : Event)
    (ds : List ℕ) (_h : 1 ≤ ds.length) :
    ((Packet.init identifier time_step_creation event_ref).add_hops ds).TTL =
      (ds.length : Int) - 1 ∧
    ((Packet.init identifier time_step_creation event_ref).add_hops ds).last_2_hops =
      last_two ds ∧
    ((Packet.init identifier time_step_creation event_ref).add_hops ds).last_2_hops.length ≤ 2 := by
  have hTTL := add_hops_TTL ds (Packet.init identifier time_step_creation event_ref)
  have hwin := add_hops_window ds (Packet.init identifier time_step_creation event_ref) rfl
  refine ⟨?_, hwin, ?_⟩
  · rw [hTTL]
    simp [Packet.init]
    ring
  · rw [hwin]
    exact last_two_length_le ds

/-- C7 witness: three hops on a fresh packet give TTL 2 and the window
of the last two drones. -/
theorem C7_witness :
    ((Packet.init 0 0 ⟨0, (0, 0), 0, 0⟩).add_hops [4, 5, 6]).TTL = 2 ∧
    ((Packet.init 0 0 ⟨0, (0, 0), 0, 0⟩).add_hops [4, 5, 6]).last_2_hops = [5, 6] := by
  have h := C7_add_hop_spec 0 0 ⟨0, (0, 0), 0, 0⟩ [4, 5, 6] (by decide)
  refine ⟨?_, ?_⟩
  · rw [h.1]; decide
  · rw [h.2.1]; decide

theorem find?_filter_ne_none (ta : List (Int × Int × Int)) (id_event : Int) :
    (ta.filter (fun p => !(p.1 == id_event))).find? (fun p => p.1 == id_event) = none := by
  rw [List.find?_eq_none]
  intro x hx
  have := List.of_mem_filter hx
  simpa using this

/-- C5: for a QTAR instance, feedback for an event id with a pending
action removes that entry from `taken_actions` and assigns
`0.7 * (delay / packets_max_ttl) + 0.2 * 1 + 0.1 * (residual_energy /
drone_max_energy)` to the value-table entry of the recorded action, so a
second feedback for the same id, and feedback for an id with no pending
entry, leave the state unchanged. -/
theorem C5_feedback_spec (ta : List (Int × Int × Int)) (q : List ℚ) (id_event s a : Int)
    (delay residual_energy packets_max_ttl drone_max_energy : ℚ) (outcome : Int) :
    (ta.find? (fun p => p.1 == id_event) = some (id_event, s, a) → 0 ≤ a →
      a.toNat < q.length →
      (qtar_feedback ⟨ta, q⟩ id_event delay residual_energy packets_max_ttl drone_max_energy
          outcome).q_table =
        q.set a.toNat
          (qtar_A * (delay / packets_max_ttl) + qtar_B * 1 +
            qtar_C * (residual_energy / drone_max_energy)) ∧
      (qtar_feedback ⟨ta, q⟩ id_event delay residual_energy packets_max_ttl drone_max_energy
          outcome).taken_actions = ta.filter (fun p => !(p.1 == id_event)) ∧
      qtar_feedback
          (qtar_feedback ⟨ta, q⟩ id_event delay residual_energy packets_max_ttl
            drone_max_energy outcome)
          id_event delay residual_energy packets_max_ttl drone_max_energy outcome =
        qtar_feedback ⟨ta, q⟩ id_event delay residual_energy packets_max_ttl drone_max_energy
          outcome) ∧
    (ta.find? (fun p => p.1 == id_event) = none →
      qtar_feedback ⟨ta, q⟩ id_event delay residual_energy packets_max_ttl drone_max_energy
          outcome = ⟨ta, q⟩) := by
  constructor
  · intro hfind ha _hlen
    have hstep :
        qtar_feedback ⟨ta, q⟩ id_event delay residual_energy packets_max_ttl drone_max_energy
            outcome =
          ⟨ta.filter (fun p => !(p.1 == id_event)),
            np_set q a
              (qtar_A * (delay / packets_max_ttl) + qtar_B * 1 +
                qtar_C * (residual_energy / drone_max_energy))⟩ := by
      simp only [qtar_feedback, hfind]
    refine ⟨?_, ?_, ?_⟩
    · rw [hstep]
      simp [np_set, ha]
    · rw [hstep]
    · rw [hstep]
      simp only [qtar_feedback, find?_filter_ne_none]
  · intro hfind
    simp only [qtar_feedback, hfind]

/-- C5 witness: a concrete pending action consumed by one feedback
call. -/
theorem C5_witness :
    (qtar_feedback ⟨[(5, 0, 1)], [10, 20, 30]⟩ 5 4 50 8 100 1).q_table = [10, 3 / 5, 30] ∧
    (qtar_feedback ⟨[(5, 0, 1)], [10, 20, 30]⟩ 5 4 50 8 100 1).taken_actions = [] := by
  have h := (C5_feedback_spec [(5, 0, 1)] [10, 20, 30] 5 0 1 4 50 8 100 1).1 (by decide)
    (by decide) (by decide)
  refine ⟨?_, ?_⟩
  · rw [h.1]
    norm_num [qtar_A, qtar_B, qtar_C]
  · rw [h.2.1]
    decide

/-- C2: when no candidate qualifies (no near-depot hint, empty two-hop
value-table scan result), `relay_selection` does not fail: the sentinel
action `-1` is recorded in `taken_actions` and `self.simulator.drones[-1]`
is returned, which under Python negative indexing is the last drone of
the roster (here drone 2), a silent default rather than an explicit
error. -/
theorem C2_no_candidate_silent_default :
    relay_selection ⟨0, [0, 1, 2], [], [0, 0, 0], 10, 20⟩ (fun _ _ => 0) (fun _ _ => 0)
        99 0 (-1) =
      some ((99, 0, -1), 2) := by
  decide

theorem foldl_update_packets_spec (alg_name : List Char) (n_drones : ℕ)
    (event_duration cur_step : Int) :
    ∀ (buffer tmp : List Packet) (tight : Option Int) (fbs : List FeedbackCall),
      buffer.foldl (update_packets_step alg_name n_drones event_duration cur_step)
          (tmp, tight, fbs) =
        (tmp ++ buffer.filter (fun p => !(p.is_expired cur_step)),
         ((buffer.filter (fun p => !(p.is_expired cur_step))).map
            (fun p => p.event_ref.deadline)).foldl nanmin_acc tight,
         fbs ++ (buffer.filter (fun p => p.is_expired cur_step)).flatMap
            (expired_feedbacks alg_name n_drones event_duration)) := by
  intro buffer
  induction buffer with
  | nil => intro tmp tight fbs; simp
  | cons pck rest ih =>
    intro tmp tight fbs
    by_cases hexp : pck.is_expired cur_step
    · have hstep :
          update_packets_step alg_name n_drones event_duration cur_step (tmp, tight, fbs) pck =
            (tmp, tight, fbs ++ expired_feedbacks alg_name n_drones event_duration pck) := by
        simp [update_packets_step, hexp]
      rw [List.foldl_cons, hstep, ih]
      simp [hexp]
    · have hstep :
          update_packets_step alg_name n_drones event_duration cur_step (tmp, tight, fbs) pck =
            (tmp ++ [pck], nanmin_acc tight pck.event_ref.deadline, fbs) := by
        simp [update_packets_step, hexp]
      rw [List.foldl_cons, hstep, ih]
      simp [hexp]

theorem foldl_nanmin_some (l : List Int) :
    ∀ m : Int, l.foldl nanmin_acc (some m) = some (l.foldl min m) := by
  induction l with
  | nil => intro m; rfl
  | cons d rest ih => intro m; simpa [nanmin_acc] using ih (min m d)

theorem foldl_min_match (l : List Int) :
    ∀ m : Int,
      l.foldl min m =
        (match min_int_list l with
         | none => m
         | some k => min m k) := by
  induction l with
  | nil => intro m; rfl
  | cons d rest ih =>
    intro m
    rw [List.foldl_cons, ih (min m d)]
    simp only [min_int_list]
    cases h : min_int_list rest with
    | none => simp
    | some k => simp [min_assoc]

theorem foldl_nanmin_none (l : List Int) : l.foldl nanmin_acc none = min_int_list l := by
  cases l with
  | nil => rfl
  | cons d rest =>
    rw [List.foldl_cons]
    show rest.foldl nanmin_acc (some d) = _
    rw [foldl_nanmin_some, foldl_min_match]
    simp only [min_int_list]
    cases h : min_int_list rest with
    | none => rfl
    | some k => rfl

/-- C4: `update_packets` keeps exactly the non-expired packets in their
original order, sets the tightest deadline to the minimum deadline of
the kept packets (the `nan` sentinel when none remain), issues for each
removed expired packet one negative feedback call (`outcome = -1`,
`delay = event_duration`) per drone unless the algorithm name is in the
`"GEO" "RND" "GEOS"` baseline string, and clears `move_routing` when the
pruned buffer is empty. -/
theorem C4_update_packets_spec (alg_name : List Char) (n_drones : ℕ)
    (event_duration cur_step : Int) (buffer : List Packet) (move_routing : Bool) :
    (update_packets alg_name n_drones event_duration cur_step buffer move_routing).1 =
        buffer.filter (fun p => !(p.is_expired cur_step)) ∧
    (update_packets alg_name n_drones event_duration cur_step buffer move_routing).2.1 =
        min_int_list ((buffer.filter (fun p => !(p.is_expired cur_step))).map
          (fun p => p.event_ref.deadline)) ∧
    (name_not_in_baselines alg_name = true →
      (update_packets alg_name n_drones event_duration cur_step buffer move_routing).2.2.1 =
        (buffer.filter (fun p => p.is_expired cur_step)).flatMap fun p =>
          (List.range n_drones).map fun j =>
            (⟨j, p.event_ref.identifier, event_duration, -1⟩ : FeedbackCall)) ∧
    (name_not_in_baselines alg_name = false →
      (update_packets alg_name n_drones event_duration cur_step buffer move_routing).2.2.1 =
        []) ∧
    (update_packets alg_name n_drones event_duration cur_step buffer move_routing).2.2.2 =
        (if buffer.filter (fun p => !(p.is_expired cur_step)) = [] then false
         else move_routing) := by
  have hfold := foldl_update_packets_spec alg_name n_drones event_duration cur_step buffer
    [] none []
  refine ⟨?_, ?_, ?_, ?_, ?_⟩
  · simp [update_packets, hfold]
  · simp [update_packets, hfold, foldl_nanmin_none]
  · intro hlearn
    simp only [update_packets, hfold]
    have hfun : expired_feedbacks alg_name n_drones event_duration = fun p =>
        (List.range n_drones).map fun j =>
          (⟨j, p.event_ref.identifier, event_duration, -1⟩ : FeedbackCall) := by
      funext p
      simp [expired_feedbacks, hlearn]
    rw [hfun]
    simp
  · intro hbase
    simp only [update_packets, hfold]
    have hfun : expired_feedbacks alg_name n_drones event_duration =
        fun _ => ([] : List FeedbackCall) := by
      funext p
      simp [expired_feedbacks, hbase]
    rw [hfun]
    simp
  · simp only [update_packets, hfold]
    simp [List.length_eq_zero]

/-- C4 witness: a buffer with deadlines 5 and 8 at step 6 under a
learning algorithm keeps only the deadline-8 packet, reports tightest
deadline 8, and broadcasts the expired packet's negative feedback to
both drones. -/
theorem C4_witness :
    (update_packets ("QTAR").toList 2 50 6
        [⟨100, 0, ⟨10, (0, 0), 0, 5⟩, -1, [], -1⟩, ⟨101, 0, ⟨11, (0, 0), 0, 8⟩, -1, [], -1⟩]
        true).2.2.1 =
      [⟨0, 10, 50, -1⟩, ⟨1, 10, 50, -1⟩] ∧
    (update_packets ("QTAR").toList 2 50 6
        [⟨100, 0, ⟨10, (0, 0), 0, 5⟩, -1, [], -1⟩, ⟨101, 0, ⟨11, (0, 0), 0, 8⟩, -1, [], -1⟩]
        true).2.1 = some 8 := by
  have h := C4_update_packets_spec ("QTAR").toList 2 50 6
    [⟨100, 0, ⟨10, (0, 0), 0, 5⟩, -1, [], -1⟩, ⟨101, 0, ⟨11, (0, 0), 0, 8⟩, -1, [], -1⟩] true
  refine ⟨?_, ?_⟩
  · rw [h.2.2.1 (by decide)]
    decide
  · rw [h.2.1]
    decide

theorem flatMap_congr_mem {α β : Type} (l : List α) (f g : α → List β)
    (h : ∀ x ∈ l, f x = g x) : l.flatMap f = l.flatMap g := by
  induction l with
  | nil => rfl
  | cons a rest ih =>
    simp only [List.flatMap_cons]
    rw [h a (List.mem_cons_self a rest), ih fun x hx => h x (List.mem_cons_of_mem a hx)]

theorem delivery_feedbacks_time_delivery (alg_name : List Char) (n_drones : ℕ)
    (cur_step : Int) (p : Packet) (x : Int) :
    delivery_feedbacks alg_name n_drones cur_step { p with time_delivery := x } =
      delivery_feedbacks alg_name n_drones cur_step p := rfl

theorem foldl_transfer_spec (alg_name : List Char) (n_drones : ℕ) (cur_step : Int) :
    ∀ (l : List ℕ) (store : ℕ → Packet) (fbs : List FeedbackCall),
      (l.foldl (transfer_step alg_name n_drones cur_step) (store, fbs)).2 =
          fbs ++ l.flatMap (fun pid => delivery_feedbacks alg_name n_drones cur_step
            (store pid)) ∧
      ∀ k, (l.foldl (transfer_step alg_name n_drones cur_step) (store, fbs)).1 k =
          (if k ∈ l then { store k with time_delivery := cur_step } else store k) := by
  intro l
  induction l with
  | nil => intro store fbs; simp
  | cons pid rest ih =>
    intro store fbs
    rw [List.foldl_cons]
    have hstep : transfer_step alg_name n_drones cur_step (store, fbs) pid =
        (fun k => if k = pid then { store pid with time_delivery := cur_step } else store k,
         fbs ++ delivery_feedbacks alg_name n_drones cur_step (store pid)) := rfl
    rw [hstep]
    obtain ⟨ih2, ih1⟩ := ih
      (fun k => if k = pid then { store pid with time_delivery := cur_step } else store k)
      (fbs ++ delivery_feedbacks alg_name n_drones cur_step (store pid))
    constructor
    · rw [ih2]
      have hcongr : rest.flatMap (fun k => delivery_feedbacks alg_name n_drones cur_step
            (if k = pid then { store pid with time_delivery := cur_step } else store k)) =
          rest.flatMap (fun k => delivery_feedbacks alg_name n_drones cur_step (store k)) := by
        apply flatMap_congr_mem
        intro x _
        by_cases hx : x = pid
        · subst hx
          simp [delivery_feedbacks_time_delivery]
        · simp [hx]
      rw [hcongr]
      simp [List.flatMap_cons]
    · intro k
      rw [ih1 k]
      by_cases hk : k ∈ rest
      · simp only [hk, if_pos, List.mem_cons, or_true, if_true]
        by_cases hkp : k = pid
        · subst hkp; simp
        · simp [hkp]
      · by_cases hkp : k = pid
        · subst hkp
          simp [hk]
        · simp [hk, hkp]

/-- C6: `transfer_notified_packets` appends every packet of the source
drone's buffer, by reference and without deduplication, to the depot's
buffer, stamps each transferred packet's `time_delivery` with the
current step, broadcasts one positive feedback call (`outcome = 1`,
`delay = cur_step - event generation time`) per drone and per packet
unless the algorithm name is in the baseline string, and leaves the
source drone's buffer unchanged. -/
theorem C6_transfer_spec (alg_name : List Char) (n_drones : ℕ) (cur_step : Int)
    (depot_buffer src_buffer : List ℕ) (store : ℕ → Packet) :
    (transfer_notified_packets alg_name n_drones cur_step depot_buffer src_buffer store).1 =
        depot_buffer ++ src_buffer ∧
    (transfer_notified_packets alg_name n_drones cur_step depot_buffer src_buffer
        store).2.1 = src_buffer ∧
    (∀ pid ∈ src_buffer,
      (transfer_notified_packets alg_name n_drones cur_step depot_buffer src_buffer
          store).2.2.1 pid = { store pid with time_delivery := cur_step }) ∧
    (∀ pid, pid ∉ src_buffer →
      (transfer_notified_packets alg_name n_drones cur_step depot_buffer src_buffer
          store).2.2.1 pid = store pid) ∧
    (name_not_in_baselines alg_name = true →
      (transfer_notified_packets alg_name n_drones cur_step depot_buffer src_buffer
          store).2.2.2 =
        src_buffer.flatMap fun pid =>
          (List.range n_drones).map fun j =>
            (⟨j, (store pid).event_ref.identifier,
              cur_step - (store pid).event_ref.current_time, 1⟩ : FeedbackCall)) ∧
    (name_not_in_baselines alg_name = false →
      (transfer_notified_packets alg_name n_drones cur_step depot_buffer src_buffer
          store).2.2.2 = []) := by
  obtain ⟨hfb, hst⟩ := foldl_transfer_spec alg_name n_drones cur_step src_buffer store []
  refine ⟨rfl, rfl, ?_, ?_, ?_, ?_⟩
  · intro pid hpid
    have := hst pid
    simp only [transfer_notified_packets]
    rw [this, if_pos hpid]
  · intro pid hpid
    have := hst pid
    simp only [transfer_notified_packets]
    rw [this, if_neg hpid]
  · intro hlearn
    simp only [transfer_notified_packets]
    rw [hfb]
    simp only [List.nil_append]
    apply flatMap_congr_mem
    intro pid _
    simp [delivery_feedbacks, hlearn]
  · intro hbase
    simp only [transfer_notified_packets]
    rw [hfb]
    simp only [List.nil_append]
    have hfun : (fun pid => delivery_feedbacks alg_name n_drones cur_step (store pid)) =
        fun _ => ([] : List FeedbackCall) := by
      funext pid
      simp [delivery_feedbacks, hbase]
    rw [hfun]
    simp

/-- C6 witness: one transferred packet under a learning algorithm gives
the appended depot buffer, one positive feedback call with
`delay = 7 - 3`, the `time_delivery` stamp, and an unchanged source
buffer. -/
theorem C6_witness :
    (transfer_notified_packets ("QTAR").toList 1 7 [5] [0]
        (fun _ => ⟨100, 0, ⟨42, (0, 0), 3, 50⟩, -1, [], -1⟩)).1 = [5, 0] ∧
    (transfer_notified_packets ("QTAR").toList 1 7 [5] [0]
        (fun _ => ⟨100, 0, ⟨42, (0, 0), 3, 50⟩, -1, [], -1⟩)).2.1 = [0] ∧
    (transfer_notified_packets ("QTAR").toList 1 7 [5] [0]
        (fun _ => ⟨100, 0, ⟨42, (0, 0), 3, 50⟩, -1, [], -1⟩)).2.2.1 0 =
      ⟨100, 0, ⟨42, (0, 0), 3, 50⟩, -1, [], 7⟩ ∧
    (transfer_notified_packets ("QTAR").toList 1 7 [5] [0]
        (fun _ => ⟨100, 0, ⟨42, (0, 0), 3, 50⟩, -1, [], -1⟩)).2.2.2 = [⟨0, 42, 4, 1⟩] := by
  have h := C6_transfer_spec ("QTAR").toList 1 7 [5] [0]
    (fun _ => ⟨100, 0, ⟨42, (0, 0), 3, 50⟩, -1, [], -1⟩)
  refine ⟨h.1, h.2.1, ?_, ?_⟩
  · rw [h.2.2.1 0 (by decide)]
  · rw [h.2.2.2.2.1 (by decide)]
    decide

end DroNET
